import Mathlib

/-!
Verification of `pyscript.core/src/stdlib/pyweb/ui/elements.py`.

The module defines a per-HTML-tag class hierarchy (`ElementBase`,
`TextElementBase`, and ~90 concrete element classes) wrapping native DOM
element creation.  We embed the module shallowly:

* Python dicts with insertion order (class dictionaries of `JSProperty`
  descriptors, keyword-argument dicts, style dicts, the JS property map of a
  DOM node) become association lists `AList := List (String × String)` with
  an update-or-append assignment `aset`.
* A DOM node becomes `DomNode` (tag name, inline style map, JS property map,
  innerHTML, children).
* Each constructor is embedded twice over the same state: as a pure state
  transformer and, jointly, as a trace of mutation `Event`s emitted in the
  source's execution order, so ordering claims are about the trace.
* The operations the module consumes from its collaborators (`document`,
  `pydom.Element`, `JSProperty` from `pyweb`) are not part of this source
  file; they are modelled from the spec where marked below.
-/

namespace PyWebUI

/-- Association list standing for a Python `dict` with insertion order. -/
abbrev AList := List (String × String)

/-- Python `d[k] = v`: update the existing key in place, else append. -/
def aset : AList → String → String → AList
  | [], k, v => [(k, v)]
  | (k0, v0) :: rest, k, v =>
      if k0 = k then (k, v) :: rest else (k0, v0) :: aset rest k v

theorem lookup_aset_self (d : AList) (k v : String) :
    (aset d k v).lookup k = some v := by
  induction d with
  | nil => simp [aset, List.lookup]
  | cons hd tl ih =>
      by_cases h : hd.1 = k
      · simp [aset, h, List.lookup]
      · have hbe : (k == hd.1) = false := beq_eq_false_iff_ne.mpr fun e => h e.symm
        simp [aset, h, List.lookup, hbe, ih]

theorem lookup_aset_ne (d : AList) (k v k' : String) (h : k' ≠ k) :
    (aset d k v).lookup k' = d.lookup k' := by
  have hbk : (k' == k) = false := beq_eq_false_iff_ne.mpr h
  induction d with
  | nil => simp [aset, List.lookup, hbk]
  | cons hd tl ih =>
      by_cases hk : hd.1 = k
      · subst hk
        simp [aset, List.lookup, hbk]
      · by_cases hk' : hd.1 = k'
        · simp [aset, hk, List.lookup, hk'.symm]
        · have hbe : (k' == hd.1) = false := beq_eq_false_iff_ne.mpr fun e => hk' e.symm
          simp [aset, hk, List.lookup, hbe, ih]

/-- One observable mutation performed during construction, in source order. -/
inductive Event where
  | create (tag : String)
  | setStyle (k v : String)
  | setProp (jsName v : String)
  | appendChild (childTag : String)
  | setHtml (v : String)
deriving DecidableEq, Repr

/-- The state of one native DOM node (the wrapped element). -/
inductive DomNode where
  | mk : String → AList → AList → Option String → List DomNode → DomNode

def DomNode.tagName : DomNode → String
  | .mk t _ _ _ _ => t

def DomNode.style : DomNode → AList
  | .mk _ s _ _ _ => s

def DomNode.props : DomNode → AList
  | .mk _ _ p _ _ => p

def DomNode.innerHtml : DomNode → Option String
  | .mk _ _ _ h _ => h

def DomNode.children : DomNode → List DomNode
  | .mk _ _ _ _ c => c

/-- Modelled from the spec: the collaborator capability consumed as
"create a native element node" (`document.createElement(tag)`), a fresh node
with the given tag and no style, properties, content or children. -/
def createElement (tag : String) : DomNode := .mk tag [] [] none []

/-- Modelled from the spec: `pydom.Element` style item assignment
(`self.style[key] = value`), writing the inline style of the wrapped node. -/
def DomNode.styleSet (n : DomNode) (k v : String) : DomNode :=
  .mk n.tagName (aset n.style k v) n.props n.innerHtml n.children

/-- Modelled from the spec: the `JSProperty` descriptor from `pyweb`
("get/set a named property on that node"); its setter writes the named JS
property of the wrapped node. -/
def JSProperty.set (n : DomNode) (jsName v : String) : DomNode :=
  .mk n.tagName n.style (aset n.props jsName v) n.innerHtml n.children

/-- Modelled from the spec: the `JSProperty` descriptor from `pyweb`
("get/set a named property on that node"); its getter reads the named JS
property of the wrapped node. -/
def JSProperty.get (n : DomNode) (jsName : String) : Option String :=
  n.props.lookup jsName

/-- Modelled from the spec: `pydom.Element.append`, adding a child node. -/
def DomNode.appendChild (n : DomNode) (c : DomNode) : DomNode :=
  .mk n.tagName n.style n.props n.innerHtml (n.children ++ [c])

/-- Modelled from the spec: the `pydom.Element.html` setter
(`self.html = content`), replacing the element's HTML content. -/
def DomNode.setHtml (n : DomNode) (s : String) : DomNode :=
  .mk n.tagName n.style n.props (some s) n.children

/-- The shapes `TextElementBase.__init__` distinguishes for `content`:
a `pydom.Element`, a list of them, `None`, or any other value (of which only
its rendering as HTML matters, kept as a string). -/
inductive Content where
  | none
  | elem (e : DomNode)
  | list (es : List DomNode)
  | text (s : String)

/-- `GLOBAL_ATTRIBUTES` from the source, in source order. -/
def GLOBAL_ATTRIBUTES : List String :=
  [ "accesskey", "autocapitalize", "autofocus", "draggable", "enterkeyhint",
    "hidden", "id", "lang", "nonce", "part", "popover", "slot", "spellcheck",
    "tabindex", "title", "translate", "virtualkeyboardpolicy", "className" ]

/-- `CUSTOM_ATTRIBUTES` from the source: tag name → extra attribute names. -/
def CUSTOM_ATTRIBUTES : List (String × List String) :=
  [ ("a", ["download", "href", "referrerpolicy", "rel", "target", "type"]),
    ("td", ["colspan", "headers", "rowspan"]),
    ("template", ["shadowrootmode"]),
    ("textarea", ["autocapitalize", "autocomplete", "autofocus", "cols",
                  "dirname", "disabled", "form", "maxlength", "minlength",
                  "name", "placeholder", "readonly", "required", "rows",
                  "spellcheck", "wrap"]),
    ("tr", ["abbr", "colspan", "headers", "rowspan", "scope"]),
    ("time", ["datetime"]),
    ("video", ["autoplay", "controls", "crossorigin",
               "disablepictureinpicture", "disableremoteplayback", "height",
               "loop", "muted", "playsinline", "poster", "preload", "src",
               "width"]) ]

/-!
## The construction routines

A class's own dictionary is modelled by the sub-dictionary of its
`JSProperty` entries (the `isinstance(attr, JSProperty)` filter of
`_init_properties`), in insertion order: pairs `(attr_name, jsName)` where
`jsName` is the property name the descriptor was created with
(`js_property(name)`).  Every entry installed by `_add_js_properties` binds
`attr` to `js_property(attr)`, so there `jsName = attr_name`; the one
hand-written entry, `script.async_ = js_property("async")`, has them differ.

Each step of a constructor both transforms the `DomNode` and appends the
`Event`s it performs, so the second component is the mutation trace in the
source's execution order.
-/

/-- The `if style:` body of `ElementBase.__init__`:
`for key, value in style.items(): self.style[key] = value`, traced. -/
def applyStyleT (s : AList) (n : DomNode) : DomNode × List Event :=
  s.foldl (fun p kv => (p.1.styleSet kv.1 kv.2, p.2 ++ [.setStyle kv.1 kv.2]))
    (n, [])

/-- `ElementBase._init_properties`: iterate the class's own dictionary and,
for each `JSProperty` entry whose attribute name is a key of `kwargs`, set
that property on the instance (the descriptor writes the wrapped node),
traced. -/
def initPropertiesT (classProps : AList) (kwargs : AList) (n : DomNode) :
    DomNode × List Event :=
  classProps.foldl
    (fun p av =>
      match kwargs.lookup av.1 with
      | some v => (JSProperty.set p.1 av.2 v, p.2 ++ [.setProp av.2 v])
      | Option.none => p)
    (n, [])

/-- The content dispatch of `TextElementBase.__init__`: append a single
`pydom.Element`, append each item of a list, ignore `None`, otherwise assign
`self.html`, traced. -/
def applyContentT (content : Content) (n : DomNode) : DomNode × List Event :=
  match content with
  | .elem e => (n.appendChild e, [.appendChild e.tagName])
  | .list es =>
      es.foldl (fun p e => (p.1.appendChild e, p.2 ++ [.appendChild e.tagName]))
        (n, [])
  | .none => (n, [])
  | .text s => (n.setHtml s, [.setHtml s])

/-- `ElementBase.__init__(self, style=None, **kwargs)`: create the native
node from the class's `tag`, apply the style dict when one was passed, then
`self._init_properties(**kwargs)`.  Traced; `classProps` is the constructed
class's own `JSProperty` dictionary. -/
def ElementBase.initT (tag : String) (classProps : AList)
    (style : Option AList) (kwargs : AList) : DomNode × List Event :=
  let n := createElement tag
  let p1 :=
    match style with
    | some s => applyStyleT s n
    | Option.none => (n, [])
  let p2 := initPropertiesT classProps kwargs p1.1
  (p2.1, Event.create tag :: (p1.2 ++ p2.2))

/-- `TextElementBase.__init__(self, content=None, style=None, **kwargs)`:
first `super().__init__(style=style, **kwargs)`, then the content dispatch.
Traced. -/
def TextElementBase.initT (tag : String) (classProps : AList)
    (content : Content) (style : Option AList) (kwargs : AList) :
    DomNode × List Event :=
  let p1 := ElementBase.initT tag classProps style kwargs
  let p2 := applyContentT content p1.1
  (p2.1, p1.2 ++ p2.2)

/-!
## The element classes

`ElemClass` records what the module's execution leaves for one class: its
Python name, its `tag` class attribute, its own-dictionary `JSProperty`
entries (in insertion order), and whether it derives from `TextElementBase`.
-/

structure ElemClass where
  pyName : String
  tag : String
  jsProps : AList
  isText : Bool
deriving DecidableEq, Repr

/-- `_add_js_properties(cls, *attrs)`: first `setattr(cls, attr,
js_property(attr))` for every global attribute, then the same for each name
in `attrs`.  (The docstring patching it also performs has no observable
effect on construction and is not modelled.) -/
def addJsProperties (c : ElemClass) (attrs : List String) : ElemClass :=
  let d1 := GLOBAL_ATTRIBUTES.foldl (fun d attr => aset d attr attr) c.jsProps
  let d2 := attrs.foldl (fun d attr => aset d attr attr) d1
  { c with jsProps := d2 }

/-!
Each concrete class of the module, named `<python name>_cls` (the Python
names `del_`, `input_`, `map_`, `object_` lose their trailing underscore
before the suffix; `section` is a Lean keyword so the uniform suffix is kept
everywhere).  A class body contributes the Python name, the `tag` attribute
and the base class; a subsequent `_add_js_properties(cls, ...)` call, when
the source has one, contributes the `JSProperty` dictionary.  `map_` and
`nav` are each defined twice in the source with identical bodies and
identical `_add_js_properties` calls; the later definition rebinds the
module name, and only that final binding is listed.
-/

/-- `class a(TextElementBase)`: its `_add_js_properties` call is commented
out in the source, so it has no `JSProperty` entries. -/
def a_cls : ElemClass := ⟨"a", "a", [], true⟩

def abbr_cls : ElemClass := addJsProperties ⟨"abbr", "abbr", [], false⟩ []

def address_cls : ElemClass := addJsProperties ⟨"address", "address", [], false⟩ []

def area_cls : ElemClass :=
  addJsProperties ⟨"area", "area", [], false⟩
    ["alt", "coords", "download", "href", "ping", "referrerpolicy", "rel",
     "shape", "target"]

def article_cls : ElemClass := addJsProperties ⟨"article", "article", [], false⟩ []

def aside_cls : ElemClass := addJsProperties ⟨"aside", "aside", [], false⟩ []

def audio_cls : ElemClass :=
  addJsProperties ⟨"audio", "audio", [], false⟩
    ["autoplay", "controls", "controlslist", "crossorigin",
     "disableremoteplayback", "loop", "muted", "preload", "src"]

def b_cls : ElemClass := addJsProperties ⟨"b", "b", [], false⟩ []

def blockquote_cls : ElemClass :=
  addJsProperties ⟨"blockquote", "blockquote", [], false⟩ ["cite"]

def br_cls : ElemClass := addJsProperties ⟨"br", "br", [], false⟩ []

def button_cls : ElemClass :=
  addJsProperties ⟨"button", "button", [], true⟩
    ["autofocus", "disabled", "form", "formaction", "formenctype",
     "formmethod", "formnovalidate", "formtarget", "name", "type", "value"]

def canvas_cls : ElemClass :=
  addJsProperties ⟨"canvas", "canvas", [], false⟩ ["height", "width"]

def caption_cls : ElemClass := addJsProperties ⟨"caption", "caption", [], false⟩ []

def cite_cls : ElemClass := addJsProperties ⟨"cite", "cite", [], true⟩ []

def code_cls : ElemClass := addJsProperties ⟨"code", "code", [], true⟩ []

def data_cls : ElemClass := addJsProperties ⟨"data", "data", [], true⟩ ["value"]

def datalist_cls : ElemClass := addJsProperties ⟨"datalist", "datalist", [], true⟩ []

def dd_cls : ElemClass := addJsProperties ⟨"dd", "dd", [], true⟩ []

def del_cls : ElemClass :=
  addJsProperties ⟨"del_", "del", [], true⟩ ["cite", "datetime"]

def details_cls : ElemClass :=
  addJsProperties ⟨"details", "details", [], true⟩ ["open"]

def dialog_cls : ElemClass := addJsProperties ⟨"dialog", "dialog", [], true⟩ ["open"]

def div_cls : ElemClass := addJsProperties ⟨"div", "div", [], true⟩ []

def dl_cls : ElemClass := addJsProperties ⟨"dl", "dl", [], true⟩ ["value"]

def dt_cls : ElemClass := addJsProperties ⟨"dt", "dt", [], true⟩ []

def em_cls : ElemClass := addJsProperties ⟨"em", "em", [], true⟩ []

def embed_cls : ElemClass :=
  addJsProperties ⟨"embed", "embed", [], true⟩ ["height", "src", "type", "width"]

def fieldset_cls : ElemClass :=
  addJsProperties ⟨"fieldset", "fieldset", [], true⟩ ["disabled", "form", "name"]

def figcation_cls : ElemClass := addJsProperties ⟨"figcation", "figcation", [], true⟩ []

def figure_cls : ElemClass := addJsProperties ⟨"figure", "figure", [], true⟩ []

def footer_cls : ElemClass := addJsProperties ⟨"footer", "footer", [], true⟩ []

def form_cls : ElemClass :=
  addJsProperties ⟨"form", "form", [], true⟩
    ["accept-charset", "action", "autocapitalize", "autocomplete", "enctype",
     "name", "method", "nonvalidate", "rel", "target"]

def h1_cls : ElemClass := addJsProperties ⟨"h1", "h1", [], true⟩ []

def h2_cls : ElemClass := addJsProperties ⟨"h2", "h2", [], true⟩ []

def h3_cls : ElemClass := addJsProperties ⟨"h3", "h3", [], true⟩ []

def h4_cls : ElemClass := addJsProperties ⟨"h4", "h4", [], true⟩ []

def h5_cls : ElemClass := addJsProperties ⟨"h5", "h5", [], true⟩ []

def h6_cls : ElemClass := addJsProperties ⟨"h6", "h6", [], true⟩ []

def header_cls : ElemClass := addJsProperties ⟨"header", "header", [], true⟩ []

def hgroup_cls : ElemClass := addJsProperties ⟨"hgroup", "hgroup", [], true⟩ []

def hr_cls : ElemClass := addJsProperties ⟨"hr", "hr", [], true⟩ []

def i_cls : ElemClass := addJsProperties ⟨"i", "i", [], true⟩ []

def iframe_cls : ElemClass :=
  addJsProperties ⟨"iframe", "iframe", [], true⟩
    ["allow", "allowfullscreen", "height", "loading", "name",
     "referrerpolicy", "sandbox", "src", "srcdoc", "width"]

def img_cls : ElemClass :=
  addJsProperties ⟨"img", "img", [], false⟩
    ["alt", "crossorigin", "decoding", "fetchpriority", "height", "ismap",
     "loading", "referrerpolicy", "sizes", "src", "width"]

def input_cls : ElemClass :=
  addJsProperties ⟨"input_", "input", [], false⟩
    ["accept", "alt", "autofocus", "capture", "checked", "dirname",
     "disabled", "form", "formaction", "formenctype", "formmethod",
     "formnovalidate", "formtarget", "height", "list", "max", "maxlength",
     "min", "minlength", "multiple", "name", "pattern", "placeholder",
     "popovertarget", "popovertargetaction", "readonly", "required", "size",
     "src", "step", "type", "value", "width"]

def ins_cls : ElemClass :=
  addJsProperties ⟨"ins", "ins", [], true⟩ ["cite", "datetime"]

def kbd_cls : ElemClass := addJsProperties ⟨"kbd", "kbd", [], true⟩ []

def label_cls : ElemClass := addJsProperties ⟨"label", "label", [], true⟩ ["for"]

def legend_cls : ElemClass := addJsProperties ⟨"legend", "legend", [], true⟩ []

def li_cls : ElemClass := addJsProperties ⟨"li", "li", [], true⟩ ["value"]

def link_cls : ElemClass :=
  addJsProperties ⟨"link", "link", [], true⟩
    ["as", "crossorigin", "disabled", "fetchpriority", "href", "imagesizes",
     "imagesrcset", "integrity", "media", "rel", "referrerpolicy", "sizes",
     "title", "type"]

def main_cls : ElemClass := addJsProperties ⟨"main", "main", [], true⟩ []

def map_cls : ElemClass := addJsProperties ⟨"map_", "map", [], true⟩ ["name"]

def mark_cls : ElemClass := addJsProperties ⟨"mark", "mark", [], true⟩ []

def menu_cls : ElemClass := addJsProperties ⟨"menu", "menu", [], true⟩ []

def meter_cls : ElemClass :=
  addJsProperties ⟨"meter", "meter", [], true⟩
    ["form", "high", "low", "max", "min", "optimum", "value"]

def nav_cls : ElemClass := addJsProperties ⟨"nav", "nav", [], true⟩ []

def object_cls : ElemClass :=
  addJsProperties ⟨"object_", "object", [], true⟩
    ["data", "form", "height", "name", "type", "usemap", "width"]

def ol_cls : ElemClass :=
  addJsProperties ⟨"ol", "ol", [], true⟩ ["reversed", "start", "type"]

def optgroup_cls : ElemClass :=
  addJsProperties ⟨"optgroup", "optgroup", [], true⟩ ["disabled", "label"]

def option_cls : ElemClass :=
  addJsProperties ⟨"option", "option", [], true⟩
    ["disabled", "label", "selected", "value"]

def output_cls : ElemClass :=
  addJsProperties ⟨"output", "output", [], true⟩ ["for", "form", "name"]

def p_cls : ElemClass := addJsProperties ⟨"p", "p", [], true⟩ []

def picture_cls : ElemClass := addJsProperties ⟨"picture", "picture", [], true⟩ []

def pre_cls : ElemClass := addJsProperties ⟨"pre", "pre", [], true⟩ []

def progress_cls : ElemClass :=
  addJsProperties ⟨"progress", "progress", [], true⟩ ["max", "value"]

def q_cls : ElemClass := addJsProperties ⟨"q", "q", [], true⟩ ["cite"]

def s_cls : ElemClass := addJsProperties ⟨"s", "s", [], true⟩ []

/-- `class script(TextElementBase)`: its body already binds
`async_ = js_property("async")` before `_add_js_properties` runs. -/
def script_extra_attrs : List String :=
  ["blocking", "crossorigin", "defer", "fetchpriority", "integrity",
   "nomodule", "nonce", "referrerpolicy", "src", "type"]

def script_cls : ElemClass :=
  addJsProperties ⟨"script", "script", [("async_", "async")], true⟩
    script_extra_attrs

def section_cls : ElemClass := addJsProperties ⟨"section", "section", [], true⟩ []

def select_cls : ElemClass := addJsProperties ⟨"select", "select", [], true⟩ []

def small_cls : ElemClass := addJsProperties ⟨"small", "small", [], true⟩ []

def source_cls : ElemClass :=
  addJsProperties ⟨"source", "source", [], true⟩
    ["type", "src", "srcset", "sizes", "media"]

/-- `class span(TextElementBase)`: no `_add_js_properties` call follows it
in the source. -/
def span_cls : ElemClass := ⟨"span", "span", [], true⟩

def strong_cls : ElemClass := addJsProperties ⟨"strong", "strong", [], true⟩ []

def style_cls : ElemClass :=
  addJsProperties ⟨"style", "style", [], true⟩
    ["blocking", "media", "nonce", "title"]

/-!
None of the classes from `sub` to `video`, nor `grid`, is followed by an
`_add_js_properties` call in the source, so each has an empty `JSProperty`
dictionary.
-/

def sub_cls : ElemClass := ⟨"sub", "sub", [], true⟩

def summary_cls : ElemClass := ⟨"summary", "summary", [], true⟩

def sup_cls : ElemClass := ⟨"sup", "sup", [], true⟩

def table_cls : ElemClass := ⟨"table", "table", [], true⟩

def tbody_cls : ElemClass := ⟨"tbody", "tbody", [], true⟩

def td_cls : ElemClass := ⟨"td", "td", [], true⟩

def template_cls : ElemClass := ⟨"template", "template", [], true⟩

def textarea_cls : ElemClass := ⟨"textarea", "textarea", [], true⟩

def tfoot_cls : ElemClass := ⟨"tfoot", "tfoot", [], true⟩

def th_cls : ElemClass := ⟨"th", "th", [], true⟩

def thead_cls : ElemClass := ⟨"thead", "thead", [], true⟩

def time_cls : ElemClass := ⟨"time", "time", [], true⟩

def title_cls : ElemClass := ⟨"title", "title", [], true⟩

def tr_cls : ElemClass := ⟨"tr", "tr", [], true⟩

def track_cls : ElemClass := ⟨"track", "track", [], true⟩

def u_cls : ElemClass := ⟨"u", "u", [], true⟩

def ul_cls : ElemClass := ⟨"ul", "ul", [], true⟩

def var_cls : ElemClass := ⟨"var", "var", [], true⟩

def video_cls : ElemClass := ⟨"video", "video", [], true⟩

/-- `class grid(TextElementBase)`: `tag = "div"` and a custom `__init__`
(embedded as `grid.initT` below); no `_add_js_properties` call. -/
def grid_cls : ElemClass := ⟨"grid", "div", [], true⟩

/-- The concrete element classes bound in the module's namespace after it
runs, in definition order (the base classes `ElementBase` and
`TextElementBase` are not element classes; `map_` and `nav` appear once,
at their final bindings). -/
def moduleClasses : List ElemClass :=
  [ a_cls, abbr_cls, address_cls, area_cls, article_cls, aside_cls,
    audio_cls, b_cls, blockquote_cls, br_cls, button_cls, canvas_cls,
    caption_cls, cite_cls, code_cls, data_cls, datalist_cls, dd_cls,
    del_cls, details_cls, dialog_cls, div_cls, dl_cls, dt_cls, em_cls,
    embed_cls, fieldset_cls, figcation_cls, figure_cls, footer_cls,
    form_cls, h1_cls, h2_cls, h3_cls, h4_cls, h5_cls, h6_cls, header_cls,
    hgroup_cls, hr_cls, i_cls, iframe_cls, img_cls, input_cls, ins_cls,
    kbd_cls, label_cls, legend_cls, li_cls, link_cls, main_cls, map_cls,
    mark_cls, menu_cls, meter_cls, nav_cls, object_cls, ol_cls,
    optgroup_cls, option_cls, output_cls, p_cls, picture_cls, pre_cls,
    progress_cls, q_cls, s_cls, script_cls, section_cls, select_cls,
    small_cls, source_cls, span_cls, strong_cls, style_cls, sub_cls,
    summary_cls, sup_cls, table_cls, tbody_cls, td_cls, template_cls,
    textarea_cls, tfoot_cls, th_cls, thead_cls, time_cls, title_cls,
    tr_cls, track_cls, u_cls, ul_cls, var_cls, video_cls, grid_cls ]

/-- `grid.__init__(self, layout, content=None, gap=None, **kwargs)`:
`super().__init__(content, **kwargs)` — a `style=` keyword travels inside
`**kwargs` and binds to `TextElementBase.__init__`'s `style` parameter, so
it is passed through here — then `self.style["display"] = "grid"`,
`self.style["grid-template-columns"] = layout`, and, only when `gap` is not
`None`, `self.style["gap"] = gap`.  Traced. -/
def grid.initT (layout : String) (content : Content) (gap : Option String)
    (style : Option AList) (kwargs : AList) : DomNode × List Event :=
  let p1 := TextElementBase.initT grid_cls.tag grid_cls.jsProps content style kwargs
  let n2 := p1.1.styleSet "display" "grid"
  let n3 := n2.styleSet "grid-template-columns" layout
  match gap with
  | some g =>
      (n3.styleSet "gap" g,
       p1.2 ++ [.setStyle "display" "grid",
                .setStyle "grid-template-columns" layout, .setStyle "gap" g])
  | Option.none =>
      (n3, p1.2 ++ [.setStyle "display" "grid",
                    .setStyle "grid-template-columns" layout])

/-- Constructing an instance of a module class: `grid` has its own
`__init__`; the `TextElementBase` subclasses take a `content` argument; the
direct `ElementBase` subclasses do not.  `layout` and `gap` are only
consumed by `grid`. -/
def constructT (c : ElemClass) (layout : String) (gap : Option String)
    (content : Content) (style : Option AList) (kwargs : AList) :
    DomNode × List Event :=
  if c.pyName = "grid" then grid.initT layout content gap style kwargs
  else if c.isText then TextElementBase.initT c.tag c.jsProps content style kwargs
  else ElementBase.initT c.tag c.jsProps style kwargs

/-- Reading a typed property off an instance: the attribute name is looked
up in the class's own `JSProperty` dictionary and the descriptor's getter
forwards to the wrapped node. -/
def instanceGet (c : ElemClass) (n : DomNode) (attrName : String) :
    Option String :=
  match c.jsProps.lookup attrName with
  | some jsName => JSProperty.get n jsName
  | Option.none => Option.none

/-- Writing a typed property on an instance: the descriptor's setter
forwards to the wrapped node; a name with no descriptor touches the node
not at all. -/
def instanceSet (c : ElemClass) (n : DomNode) (attrName v : String) :
    DomNode :=
  match c.jsProps.lookup attrName with
  | some jsName => JSProperty.set n jsName v
  | Option.none => n

/-!
## Pure decompositions of the traced constructors

Each constructor step is a pure state transformer together with a pure
description of the events it emits; the lemmas below show the traced
constructors factor through them.
-/

/-- The node after the style loop of `ElementBase.__init__`. -/
def applyStyle (s : AList) (n : DomNode) : DomNode :=
  s.foldl (fun m kv => m.styleSet kv.1 kv.2) n

/-- The node after `_init_properties`. -/
def initProperties (classProps kwargs : AList) (n : DomNode) : DomNode :=
  classProps.foldl
    (fun m av =>
      match kwargs.lookup av.1 with
      | some v => JSProperty.set m av.2 v
      | Option.none => m)
    n

/-- The node after the content dispatch of `TextElementBase.__init__`. -/
def applyContent : Content → DomNode → DomNode
  | .elem e, n => n.appendChild e
  | .list es, n => es.foldl (fun m e => m.appendChild e) n
  | .none, n => n
  | .text s, n => n.setHtml s

/-- The events the style loop emits. -/
def styleEvents (s : AList) : List Event :=
  s.map fun kv => Event.setStyle kv.1 kv.2

/-- The events `_init_properties` emits: one per class `JSProperty` entry
whose attribute name occurs in `kwargs`, in class-dictionary order. -/
def propEvents (classProps kwargs : AList) : List Event :=
  classProps.filterMap fun av =>
    (kwargs.lookup av.1).map fun v => Event.setProp av.2 v

/-- The events the content dispatch emits. -/
def contentEvents : Content → List Event
  | .elem e => [.appendChild e.tagName]
  | .list es => es.map fun e => Event.appendChild e.tagName
  | .none => []
  | .text s => [.setHtml s]

theorem DomNode.tagName_mk (t : String) (s p : AList) (h : Option String)
    (c : List DomNode) : (DomNode.mk t s p h c).tagName = t := rfl

theorem DomNode.style_mk (t : String) (s p : AList) (h : Option String)
    (c : List DomNode) : (DomNode.mk t s p h c).style = s := rfl

theorem DomNode.props_mk (t : String) (s p : AList) (h : Option String)
    (c : List DomNode) : (DomNode.mk t s p h c).props = p := rfl

theorem DomNode.innerHtml_mk (t : String) (s p : AList) (h : Option String)
    (c : List DomNode) : (DomNode.mk t s p h c).innerHtml = h := rfl

theorem DomNode.children_mk (t : String) (s p : AList) (h : Option String)
    (c : List DomNode) : (DomNode.mk t s p h c).children = c := rfl

theorem DomNode.eta (n : DomNode) :
    DomNode.mk n.tagName n.style n.props n.innerHtml n.children = n := by
  cases n
  rfl

theorem applyStyleT_foldl (s : AList) (n : DomNode) (evs : List Event) :
    s.foldl
        (fun p kv => (p.1.styleSet kv.1 kv.2, p.2 ++ [.setStyle kv.1 kv.2]))
        (n, evs)
      = (applyStyle s n, evs ++ styleEvents s) := by
  induction s generalizing n evs with
  | nil => simp [applyStyle, styleEvents]
  | cons kv rest ih =>
      simp [applyStyle, styleEvents, List.foldl_cons, ih]

theorem applyStyleT_eq (s : AList) (n : DomNode) :
    applyStyleT s n = (applyStyle s n, styleEvents s) := by
  simpa using applyStyleT_foldl s n []

theorem initPropertiesT_foldl (classProps kwargs : AList) (n : DomNode)
    (evs : List Event) :
    classProps.foldl
        (fun p av =>
          match kwargs.lookup av.1 with
          | some v => (JSProperty.set p.1 av.2 v, p.2 ++ [.setProp av.2 v])
          | Option.none => p)
        (n, evs)
      = (initProperties classProps kwargs n, evs ++ propEvents classProps kwargs) := by
  induction classProps generalizing n evs with
  | nil => simp [initProperties, propEvents]
  | cons av rest ih =>
      cases h : kwargs.lookup av.1 with
      | none => simp [initProperties, propEvents, List.foldl_cons, h, ih]
      | some v => simp [initProperties, propEvents, List.foldl_cons, h, ih]

theorem initPropertiesT_eq (classProps kwargs : AList) (n : DomNode) :
    initPropertiesT classProps kwargs n
      = (initProperties classProps kwargs n, propEvents classProps kwargs) := by
  simpa [initPropertiesT] using initPropertiesT_foldl classProps kwargs n []

theorem appendChild_foldl (es : List DomNode) (n : DomNode) :
    es.foldl (fun m e => m.appendChild e) n
      = DomNode.mk n.tagName n.style n.props n.innerHtml (n.children ++ es) := by
  induction es generalizing n with
  | nil => simp [DomNode.eta]
  | cons e rest ih =>
      rw [List.foldl_cons, ih]
      simp [DomNode.appendChild, DomNode.tagName_mk, DomNode.style_mk,
            DomNode.props_mk, DomNode.innerHtml_mk, DomNode.children_mk]

theorem appendChildT_foldl (es : List DomNode) (n : DomNode) (evs : List Event) :
    es.foldl
        (fun p e => (p.1.appendChild e, p.2 ++ [.appendChild e.tagName]))
        (n, evs)
      = (es.foldl (fun m e => m.appendChild e) n,
         evs ++ es.map fun e => Event.appendChild e.tagName) := by
  induction es generalizing n evs with
  | nil => simp
  | cons e rest ih => simp [List.foldl_cons, ih]

theorem applyContentT_eq (content : Content) (n : DomNode) :
    applyContentT content n = (applyContent content n, contentEvents content) := by
  cases content with
  | elem e => rfl
  | list es => simpa [applyContentT, applyContent, contentEvents] using
      appendChildT_foldl es n []
  | none => rfl
  | text s => rfl

theorem elemInitT_eq (tag : String) (classProps : AList)
    (style : Option AList) (kwargs : AList) :
    ElementBase.initT tag classProps style kwargs
      = (initProperties classProps kwargs
           (applyStyle (style.getD []) (createElement tag)),
         Event.create tag ::
           (styleEvents (style.getD []) ++ propEvents classProps kwargs)) := by
  cases style with
  | none =>
      simp [ElementBase.initT, initPropertiesT_eq, Option.getD, applyStyle,
            styleEvents]
  | some s =>
      simp [ElementBase.initT, applyStyleT_eq, initPropertiesT_eq, Option.getD]

theorem textInitT_eq (tag : String) (classProps : AList)
    (content : Content) (style : Option AList) (kwargs : AList) :
    TextElementBase.initT tag classProps content style kwargs
      = (applyContent content
           (initProperties classProps kwargs
             (applyStyle (style.getD []) (createElement tag))),
         Event.create tag ::
           (styleEvents (style.getD []) ++ propEvents classProps kwargs
             ++ contentEvents content)) := by
  simp [TextElementBase.initT, elemInitT_eq, applyContentT_eq,
        List.append_assoc]

/-!
## Helper lemmas about creation events, tag preservation, and lookups
-/

/-- Recognizes the `document.createElement` event in a trace. -/
def Event.isCreate : Event → Bool
  | .create _ => true
  | _ => false

theorem filter_isCreate_styleEvents (s : AList) :
    (styleEvents s).filter Event.isCreate = [] := by
  induction s with
  | nil => rfl
  | cons kv rest ih =>
      simp [styleEvents, Event.isCreate, List.filter] at ih ⊢
      exact ih

theorem filter_isCreate_propEvents (classProps kwargs : AList) :
    (propEvents classProps kwargs).filter Event.isCreate = [] := by
  induction classProps with
  | nil => rfl
  | cons av rest ih =>
      cases h : kwargs.lookup av.1 with
      | none => simpa [propEvents, h] using ih
      | some v => simpa [propEvents, h, Event.isCreate, List.filter] using ih

theorem filter_isCreate_contentEvents (content : Content) :
    (contentEvents content).filter Event.isCreate = [] := by
  cases content with
  | elem e => rfl
  | list es => simp [contentEvents, Event.isCreate, List.filter_map]
  | none => rfl
  | text s => rfl

theorem tagName_styleSet (n : DomNode) (k v : String) :
    (n.styleSet k v).tagName = n.tagName := rfl

theorem tagName_jsSet (n : DomNode) (j v : String) :
    (JSProperty.set n j v).tagName = n.tagName := rfl

theorem tagName_applyStyle (s : AList) (n : DomNode) :
    (applyStyle s n).tagName = n.tagName := by
  induction s generalizing n with
  | nil => rfl
  | cons kv rest ih => simp [applyStyle, List.foldl_cons] at ih ⊢; rw [ih]; rfl

theorem tagName_initProperties (classProps kwargs : AList) (n : DomNode) :
    (initProperties classProps kwargs n).tagName = n.tagName := by
  induction classProps generalizing n with
  | nil => rfl
  | cons av rest ih =>
      cases h : kwargs.lookup av.1 with
      | none => simp [initProperties, List.foldl_cons, h] at ih ⊢; rw [ih]
      | some v => simp [initProperties, List.foldl_cons, h] at ih ⊢; rw [ih]; rfl

theorem tagName_applyContent (content : Content) (n : DomNode) :
    (applyContent content n).tagName = n.tagName := by
  cases content with
  | elem e => rfl
  | list es => simp [applyContent, appendChild_foldl, DomNode.tagName_mk]
  | none => rfl
  | text s => rfl

theorem lookup_cons_ne (kwargs : AList) (k v a : String) (h : a ≠ k) :
    ((k, v) :: kwargs).lookup a = kwargs.lookup a := by
  simp [List.lookup, beq_eq_false_iff_ne.mpr h]

theorem keys_ne_of_lookup_none (d : AList) (k : String)
    (h : d.lookup k = Option.none) : ∀ av ∈ d, av.1 ≠ k := by
  induction d with
  | nil => intro av hav; simp at hav
  | cons hd tl ih =>
      by_cases hk : hd.1 = k
      · exfalso
        have : (k == hd.1) = true := beq_iff_eq.mpr hk.symm
        simp [List.lookup, this] at h
      · intro av hav
        rcases List.mem_cons.mp hav with rfl | hmem
        · exact hk
        · have hbe : (k == hd.1) = false := beq_eq_false_iff_ne.mpr fun e => hk e.symm
          simp only [List.lookup, hbe] at h
          exact ih h av hmem

theorem lookup_foldl_aset (names : List String) (d : AList) (n : String) :
    (names.foldl (fun d a => aset d a a) d).lookup n
      = if n ∈ names then some n else d.lookup n := by
  induction names generalizing d with
  | nil => simp
  | cons a rest ih =>
      rw [List.foldl_cons, ih]
      by_cases hn : n ∈ rest
      · simp [hn, List.mem_cons]
      · by_cases hna : n = a
        · subst hna
          simp [hn, lookup_aset_self]
        · simp [hn, hna, lookup_aset_ne d a a n hna]

theorem initProperties_congr (classProps kw1 kw2 : AList) (n : DomNode)
    (h : ∀ av ∈ classProps, kw1.lookup av.1 = kw2.lookup av.1) :
    initProperties classProps kw1 n = initProperties classProps kw2 n := by
  induction classProps generalizing n with
  | nil => rfl
  | cons av rest ih =>
      have hav := h av (List.mem_cons_self av rest)
      simp only [initProperties, List.foldl_cons] at ih ⊢
      rw [hav]
      exact ih _ fun x hx => h x (List.mem_cons_of_mem av hx)

theorem propEvents_congr (classProps kw1 kw2 : AList)
    (h : ∀ av ∈ classProps, kw1.lookup av.1 = kw2.lookup av.1) :
    propEvents classProps kw1 = propEvents classProps kw2 := by
  induction classProps with
  | nil => rfl
  | cons av rest ih =>
      have hav := h av (List.mem_cons_self av rest)
      simp only [propEvents, List.filterMap_cons] at ih ⊢
      rw [hav, ih fun x hx => h x (List.mem_cons_of_mem av hx)]

theorem initPropertiesT_congr (classProps kw1 kw2 : AList) (n : DomNode)
    (h : ∀ av ∈ classProps, kw1.lookup av.1 = kw2.lookup av.1) :
    initPropertiesT classProps kw1 n = initPropertiesT classProps kw2 n := by
  rw [initPropertiesT_eq, initPropertiesT_eq,
      initProperties_congr classProps kw1 kw2 n h,
      propEvents_congr classProps kw1 kw2 h]

theorem textInitT_filter_isCreate (tag : String) (classProps : AList)
    (content : Content) (style : Option AList) (kwargs : AList) :
    ((TextElementBase.initT tag classProps content style kwargs).2).filter
        Event.isCreate = [Event.create tag] := by
  rw [textInitT_eq]
  simp [List.filter_append, List.filter, Event.isCreate,
        filter_isCreate_styleEvents, filter_isCreate_propEvents,
        filter_isCreate_contentEvents]

theorem elemInitT_filter_isCreate (tag : String) (classProps : AList)
    (style : Option AList) (kwargs : AList) :
    ((ElementBase.initT tag classProps style kwargs).2).filter
        Event.isCreate = [Event.create tag] := by
  rw [elemInitT_eq]
  simp [List.filter_append, List.filter, Event.isCreate,
        filter_isCreate_styleEvents, filter_isCreate_propEvents]

theorem gridInitT_trace (layout : String) (content : Content)
    (gap : Option String) (style : Option AList) (kwargs : AList) :
    (grid.initT layout content gap style kwargs).2
      = (TextElementBase.initT grid_cls.tag grid_cls.jsProps content style
            kwargs).2
        ++ ([Event.setStyle "display" "grid",
             Event.setStyle "grid-template-columns" layout]
            ++ (match gap with
                | some g => [Event.setStyle "gap" g]
                | Option.none => [])) := by
  cases gap with
  | none => rfl
  | some g => rfl

theorem gridInitT_node (layout : String) (content : Content)
    (gap : Option String) (style : Option AList) (kwargs : AList) :
    (grid.initT layout content gap style kwargs).1
      = (let n3 :=
           (((TextElementBase.initT grid_cls.tag grid_cls.jsProps content
                style kwargs).1).styleSet "display" "grid").styleSet
             "grid-template-columns" layout
         match gap with
         | some g => n3.styleSet "gap" g
         | Option.none => n3) := by
  cases gap with
  | none => rfl
  | some g => rfl

theorem gridInitT_filter_isCreate (layout : String) (content : Content)
    (gap : Option String) (style : Option AList) (kwargs : AList) :
    ((grid.initT layout content gap style kwargs).2).filter
        Event.isCreate = [Event.create "div"] := by
  rw [gridInitT_trace, List.filter_append, textInitT_filter_isCreate]
  cases gap with
  | none => rfl
  | some g => rfl

theorem elemInitT_tagName (tag : String) (classProps : AList)
    (style : Option AList) (kwargs : AList) :
    ((ElementBase.initT tag classProps style kwargs).1).tagName = tag := by
  rw [elemInitT_eq]
  simp [tagName_initProperties, tagName_applyStyle, createElement,
        DomNode.tagName_mk]

theorem textInitT_tagName (tag : String) (classProps : AList)
    (content : Content) (style : Option AList) (kwargs : AList) :
    ((TextElementBase.initT tag classProps content style kwargs).1).tagName
      = tag := by
  rw [textInitT_eq]
  simp [tagName_applyContent, tagName_initProperties, tagName_applyStyle,
        createElement, DomNode.tagName_mk]

theorem gridInitT_tagName (layout : String) (content : Content)
    (gap : Option String) (style : Option AList) (kwargs : AList) :
    ((grid.initT layout content gap style kwargs).1).tagName = "div" := by
  cases gap with
  | none =>
      simp only [gridInitT_node]
      rw [tagName_styleSet, tagName_styleSet, textInitT_tagName]
      rfl
  | some g =>
      simp only [gridInitT_node]
      rw [tagName_styleSet, tagName_styleSet, tagName_styleSet,
          textInitT_tagName]
      rfl

/-- The construction order as the spec's §2 sentence lists it — global
attributes at creation, then style entries, then content insertion, then
property assignment — stated from the spec's words, for comparison with the
trace the embedded constructor actually produces. -/
def claimedConstructionTrace (tag : String) (classProps : AList)
    (content : Content) (style : Option AList) (kwargs : AList) :
    List Event :=
  Event.create tag ::
    (styleEvents (style.getD []) ++ contentEvents content
      ++ propEvents classProps kwargs)

set_option maxRecDepth 10000

/-!
## The claims
-/

/-- C1 (counterexample): the base construction routine does not perform
style, content, property assignment in that order.  On a `div` with one
style entry, string content and a recognized `id` keyword, the actual trace
sets the property before inserting the content, so it differs from the
order the claim states. -/
theorem textElementBase_init_order_counterexample :
    (TextElementBase.initT "div" div_cls.jsProps (Content.text "x")
        (some [("color", "red")]) [("id", "y")]).2
      ≠ claimedConstructionTrace "div" div_cls.jsProps (Content.text "x")
          (some [("color", "red")]) [("id", "y")] := by decide

/-- C1 (amended): the base construction routine creates the node, then sets
each style key/value pair in order, then assigns each supplied recognized
property (in class-dictionary order), and only then inserts the content:
the mutation trace of `TextElementBase.__init__` is exactly the creation
event followed by the style events, the property events, and the content
events, in that order. -/
theorem textElementBase_init_order (tag : String) (classProps : AList)
    (content : Content) (style : Option AList) (kwargs : AList) :
    (TextElementBase.initT tag classProps content style kwargs).2
      = Event.create tag ::
          (styleEvents (style.getD []) ++ propEvents classProps kwargs
            ++ contentEvents content) := by
  rw [textInitT_eq]

/-- C2: for every element class of the module and all constructor
arguments, construction performs exactly one `document.createElement` call,
with the class's `tag` attribute as argument, and the instance's wrapped
node carries that tag. -/
theorem element_construct_creates_exactly_once (c : ElemClass)
    (hc : c ∈ moduleClasses) (layout : String) (gap : Option String)
    (content : Content) (style : Option AList) (kwargs : AList) :
    (constructT c layout gap content style kwargs).2.filter Event.isCreate
        = [Event.create c.tag]
      ∧ ((constructT c layout gap content style kwargs).1).tagName = c.tag := by
  have hgrid : c.pyName = "grid" → c.tag = "div" := by
    intro hpn
    have hall : moduleClasses.all
        (fun x => !(x.pyName == "grid") || (x.tag == "div")) = true := by decide
    have hx := List.all_eq_true.mp hall c hc
    simp [hpn] at hx
    exact hx
  constructor
  · unfold constructT
    by_cases hpn : c.pyName = "grid"
    · rw [if_pos hpn, gridInitT_filter_isCreate, hgrid hpn]
    · rw [if_neg hpn]
      by_cases ht : c.isText = true
      · rw [if_pos ht, textInitT_filter_isCreate]
      · rw [if_neg ht, elemInitT_filter_isCreate]
  · unfold constructT
    by_cases hpn : c.pyName = "grid"
    · rw [if_pos hpn, gridInitT_tagName, hgrid hpn]
    · rw [if_neg hpn]
      by_cases ht : c.isText = true
      · rw [if_pos ht, textInitT_tagName]
      · rw [if_neg ht, elemInitT_tagName]

/-- C2 (witness): instantiated on the `a` class with no arguments. -/
theorem element_construct_creates_exactly_once_witness :
    (constructT a_cls "" Option.none Content.none Option.none []).2.filter
        Event.isCreate = [Event.create a_cls.tag]
      ∧ ((constructT a_cls "" Option.none Content.none Option.none []).1).tagName
          = a_cls.tag :=
  element_construct_creates_exactly_once a_cls (by decide) "" Option.none
    Content.none Option.none []

/-- C3 (counterexample): `_add_js_properties` does not leave exactly the
global and per-call attributes as `JSProperty` entries.  The `script` class
enters the call with its hand-written `async_` descriptor, which survives
it, and `async_` is neither a global attribute nor among the extras passed
for `script`. -/
theorem addJsProperties_not_exact_on_script :
    script_cls
        = addJsProperties ⟨"script", "script", [("async_", "async")], true⟩
            script_extra_attrs
      ∧ script_cls.jsProps.lookup "async_" = some "async"
      ∧ "async_" ∉ GLOBAL_ATTRIBUTES
      ∧ "async_" ∉ script_extra_attrs :=
  ⟨rfl, by decide, by decide, by decide⟩

/-- C3 (amended): after `_add_js_properties(cls, *attrs)` the class has a
`JSProperty` entry, bound to the attribute name it exposes, for every name
in `GLOBAL_ATTRIBUTES` and every name in `attrs`; for every other name it
has exactly the `JSProperty` entries it already had (so the installed set
is exactly the global set plus the extras only when the class had none
before, which fails for `script`). -/
theorem addJsProperties_lookup_eq (c : ElemClass) (attrs : List String)
    (n : String) :
    (addJsProperties c attrs).jsProps.lookup n
      = if n ∈ GLOBAL_ATTRIBUTES ∨ n ∈ attrs then some n
        else c.jsProps.lookup n := by
  show (attrs.foldl (fun d a => aset d a a)
      (GLOBAL_ATTRIBUTES.foldl (fun d a => aset d a a) c.jsProps)).lookup n = _
  rw [lookup_foldl_aset, lookup_foldl_aset]
  by_cases h1 : n ∈ attrs
  · simp [h1]
  · by_cases h2 : n ∈ GLOBAL_ATTRIBUTES
    · simp [h1, h2]
    · simp [h1, h2]

/-- C4: access to a recognized typed property is forwarded to the wrapped
node: when the class's own dictionary binds the attribute name to a
`JSProperty` exposing `jsName`, getting returns the node's `jsName`
property, setting writes it, and setting leaves every other property of the
node unchanged. -/
theorem jsProperty_access_forwards (c : ElemClass) (n : DomNode)
    (attrName jsName v j' : String)
    (h : c.jsProps.lookup attrName = some jsName) (hj : j' ≠ jsName) :
    instanceGet c n attrName = n.props.lookup jsName
      ∧ (instanceSet c n attrName v).props.lookup jsName = some v
      ∧ (instanceSet c n attrName v).props.lookup j' = n.props.lookup j' := by
  refine ⟨?_, ?_, ?_⟩ <;>
    simp [instanceGet, instanceSet, h, JSProperty.get, JSProperty.set,
          DomNode.props_mk, lookup_aset_self, lookup_aset_ne _ _ _ _ hj]

/-- C4 (witness): the global `id` property of a `div` instance. -/
theorem jsProperty_access_forwards_witness :
    instanceGet div_cls (createElement "div") "id"
        = (createElement "div").props.lookup "id"
      ∧ (instanceSet div_cls (createElement "div") "id" "x").props.lookup "id"
          = some "x"
      ∧ (instanceSet div_cls (createElement "div") "id" "x").props.lookup "title"
          = (createElement "div").props.lookup "title" :=
  jsProperty_access_forwards div_cls (createElement "div") "id" "id" "x"
    "title" (by decide) (by decide)

/-- C5 (counterexample): the class-to-tag mapping is not a bijection: `div`
and `grid` are distinct classes of the module and both carry the tag
`"div"`. -/
theorem class_tag_map_not_injective :
    div_cls ∈ moduleClasses ∧ grid_cls ∈ moduleClasses
      ∧ div_cls ≠ grid_cls ∧ div_cls.tag = grid_cls.tag :=
  ⟨by decide, by decide, by decide, rfl⟩

/-- C5 (amended): every element class carries exactly one tag, and the
class-to-tag mapping is injective on all classes except the custom `grid`
class, which reuses the tag `"div"` already claimed by `div`. -/
theorem class_tag_map_injective_off_grid :
    ((moduleClasses.filter fun c => c.pyName ≠ "grid").map
        fun c => c.tag).Nodup := by decide

/-- C6: the `CUSTOM_ATTRIBUTES` table is dead data.  For every tag it
lists, the module's element class for that tag has an empty `JSProperty`
dictionary, so none of the listed attribute names is recognized; in
particular the table lists `href` for `a`, yet constructing an `a` with an
`href` keyword leaves the wrapped node without an `href` property. -/
theorem custom_attributes_table_unconsumed :
    (∀ ta ∈ CUSTOM_ATTRIBUTES, ∀ c ∈ moduleClasses,
        c.tag = ta.1 → c.jsProps = [])
      ∧ CUSTOM_ATTRIBUTES.lookup "a"
          = some ["download", "href", "referrerpolicy", "rel", "target", "type"]
      ∧ ((TextElementBase.initT a_cls.tag a_cls.jsProps Content.none
            Option.none [("href", "https://example.com")]).1).props.lookup
          "href" = Option.none :=
  ⟨by decide, by decide, by decide⟩

/-- C7: the property-harvesting routine is not applied to every element
class: `span` is an element class of the module, `id` is a global
attribute, yet `span` has no `JSProperty` entries at all, and constructing
a `span` with an `id` keyword leaves the wrapped node without an `id`
property. -/
theorem global_attributes_not_on_span :
    "id" ∈ GLOBAL_ATTRIBUTES ∧ span_cls ∈ moduleClasses
      ∧ span_cls.jsProps = []
      ∧ ((TextElementBase.initT span_cls.tag span_cls.jsProps Content.none
            Option.none [("id", "foo")]).1).props.lookup "id" = Option.none :=
  ⟨by decide, by decide, rfl, by decide⟩

/-- C8: a keyword argument whose name has no `JSProperty` entry in the
class's own dictionary is silently ignored: construction is total, and
adding such an argument changes neither the resulting node nor the
mutation trace. -/
theorem unrecognized_kwarg_silently_ignored (tag : String)
    (classProps : AList) (content : Content) (style : Option AList)
    (kwargs : AList) (k v : String)
    (h : classProps.lookup k = Option.none) :
    TextElementBase.initT tag classProps content style ((k, v) :: kwargs)
      = TextElementBase.initT tag classProps content style kwargs := by
  have hlk : ∀ av ∈ classProps,
      ((k, v) :: kwargs).lookup av.1 = kwargs.lookup av.1 :=
    fun av hav =>
      lookup_cons_ne kwargs k v av.1 (keys_ne_of_lookup_none classProps k h av hav)
  rw [textInitT_eq, textInitT_eq,
      initProperties_congr classProps _ kwargs _ hlk,
      propEvents_congr classProps _ kwargs hlk]

/-- C8 (witness): a made-up keyword on a `div` instance. -/
theorem unrecognized_kwarg_silently_ignored_witness :
    TextElementBase.initT "div" div_cls.jsProps Content.none Option.none
        [("madeup", "1")]
      = TextElementBase.initT "div" div_cls.jsProps Content.none Option.none
          [] :=
  unrecognized_kwarg_silently_ignored "div" div_cls.jsProps Content.none
    Option.none [] "madeup" "1" (by decide)

/-- C9: the content dispatch of `TextElementBase.__init__`: a
`pydom.Element` is appended as a child; a list has every item appended in
list order with all other node state untouched; `None` leaves the node
exactly as `ElementBase.__init__` left it; any other value is assigned as
the element's html. -/
theorem content_insertion_dispatch (tag : String) (classProps : AList)
    (style : Option AList) (kwargs : AList) (e : DomNode)
    (es : List DomNode) (s : String) :
    (TextElementBase.initT tag classProps (Content.elem e) style kwargs).1
        = ((ElementBase.initT tag classProps style kwargs).1).appendChild e
      ∧ (TextElementBase.initT tag classProps (Content.list es) style kwargs).1
          = DomNode.mk ((ElementBase.initT tag classProps style kwargs).1).tagName
              ((ElementBase.initT tag classProps style kwargs).1).style
              ((ElementBase.initT tag classProps style kwargs).1).props
              ((ElementBase.initT tag classProps style kwargs).1).innerHtml
              (((ElementBase.initT tag classProps style kwargs).1).children ++ es)
      ∧ (TextElementBase.initT tag classProps Content.none style kwargs).1
          = (ElementBase.initT tag classProps style kwargs).1
      ∧ (TextElementBase.initT tag classProps (Content.text s) style kwargs).1
          = ((ElementBase.initT tag classProps style kwargs).1).setHtml s := by
  refine ⟨?_, ?_, ?_, ?_⟩ <;>
    simp [TextElementBase.initT, applyContentT_eq, applyContent,
          appendChild_foldl]

/-- C10: `grid` always forces a grid layout: whatever the arguments, the
final style has `display = "grid"` (overriding any display entry of the
style argument) and `grid-template-columns` equal to the layout argument,
and the `gap` entry is written by the constructor exactly when `gap` is not
`None` — otherwise it stays whatever the base construction left. -/
theorem grid_forces_grid_layout (layout : String) (content : Content)
    (gap : Option String) (style : Option AList) (kwargs : AList) :
    ((grid.initT layout content gap style kwargs).1).style.lookup "display"
        = some "grid"
      ∧ ((grid.initT layout content gap style kwargs).1).style.lookup
          "grid-template-columns" = some layout
      ∧ ((grid.initT layout content gap style kwargs).1).style.lookup "gap"
          = (match gap with
             | some g => some g
             | Option.none =>
                 ((TextElementBase.initT grid_cls.tag grid_cls.jsProps content
                     style kwargs).1).style.lookup "gap") := by
  cases gap with
  | none =>
      refine ⟨?_, ?_, ?_⟩ <;>
        simp only [grid.initT, DomNode.styleSet, DomNode.style_mk,
                   DomNode.tagName_mk, DomNode.props_mk, DomNode.innerHtml_mk,
                   DomNode.children_mk]
      · rw [lookup_aset_ne _ _ _ _
              (by decide : "display" ≠ "grid-template-columns"),
            lookup_aset_self]
      · rw [lookup_aset_self]
      · rw [lookup_aset_ne _ _ _ _
              (by decide : "gap" ≠ "grid-template-columns"),
            lookup_aset_ne _ _ _ _ (by decide : "gap" ≠ "display")]
  | some g =>
      refine ⟨?_, ?_, ?_⟩ <;>
        simp only [grid.initT, DomNode.styleSet, DomNode.style_mk,
                   DomNode.tagName_mk, DomNode.props_mk, DomNode.innerHtml_mk,
                   DomNode.children_mk]
      · rw [lookup_aset_ne _ _ _ _ (by decide : "display" ≠ "gap"),
            lookup_aset_ne _ _ _ _
              (by decide : "display" ≠ "grid-template-columns"),
            lookup_aset_self]
      · rw [lookup_aset_ne _ _ _ _
              (by decide : "grid-template-columns" ≠ "gap"),
            lookup_aset_self]
      · rw [lookup_aset_self]

end PyWebUI
